import Mathlib

/-
Verification of the QFLAG classification and penalty-weighted aggregation
logic of the SITES-spectral processing-phenocam application.

The definitions below are a shallow embedding of the Python source
(src/data_processing_phenocams_app/app.py, components.py, utils.py):
Python dicts become association lists with most-recent-insertion-first
lookup, Python floats on the classifier paths are exact decimal constants
and are embedded as rationals, and fallible code paths (KeyError,
ValueError) return Option.
-/

set_option autoImplicit false

namespace Phenocam

/-! ## Python dict model -/

/-- A Python dict is modelled as an association list; assignment prepends
and lookup takes the most recent binding for a key. -/
def dinsert {α : Type} (k : String) (v : α) (d : List (String × α)) :
    List (String × α) :=
  (k, v) :: d

/-- Lookup of a key in the association-list model of a dict. -/
def dlookup {α : Type} (k : String) (d : List (String × α)) : Option α :=
  (d.find? (fun kv => kv.1 == k)).map Prod.snd

/-! ## QFLAG classifier (app.py lines 467-507)

The source is a chained conditional over `n_records` and
`solar_elevation_class`, with the count thresholds depending on
`default_temporal_resolution` and the weights on `is_per_image`; the final
`else` raises `ValueError`, embedded as `none`. -/

/-- The chained conditional of app.py lines 467-507: returns the
`(QFLAG, weight)` pair, or `none` for the `raise ValueError` branch. -/
def compute_QFLAG (default_temporal_resolution is_per_image : Bool)
    (n_records : ℕ) (solar_elevation_class : ℤ) : Option (ℤ × ℚ) :=
  if n_records < (if default_temporal_resolution then 3 else 2) ∧
      solar_elevation_class = 1 then
    some (11, if !is_per_image then 0.1 else 0.5)
  else if n_records < (if default_temporal_resolution then 3 else 2) ∧
      solar_elevation_class = 2 then
    some (12, if !is_per_image then 0.75 else 0.75)
  else if n_records < (if default_temporal_resolution then 3 else 2) ∧
      solar_elevation_class = 3 then
    some (13, if !is_per_image then 0.75 else 1.0)
  else if (n_records ≥ (if default_temporal_resolution then 3 else 2) ∧
      n_records < (if default_temporal_resolution then 6 else 4)) ∧
      solar_elevation_class = 1 then
    some (21, 0.5)
  else if (n_records ≥ (if default_temporal_resolution then 3 else 2) ∧
      n_records < (if default_temporal_resolution then 6 else 4)) ∧
      solar_elevation_class = 2 then
    some (22, 0.75)
  else if (n_records ≥ (if default_temporal_resolution then 3 else 2) ∧
      n_records < (if default_temporal_resolution then 6 else 4)) ∧
      solar_elevation_class = 3 then
    some (23, 1)
  else if n_records ≥ (if default_temporal_resolution then 6 else 4) ∧
      solar_elevation_class = 1 then
    some (31, 0.75)
  else if n_records ≥ (if default_temporal_resolution then 6 else 4) ∧
      solar_elevation_class = 2 then
    some (32, 1.0)
  else if n_records ≥ (if default_temporal_resolution then 6 else 4) ∧
      solar_elevation_class = 3 then
    some (33, 1)
  else
    none

/-- The record-count tier selected by the boundaries `(3, 6)` in default
temporal resolution and `(2, 4)` otherwise, as described by the spec. -/
def count_tier (default_temporal_resolution : Bool) (n_records : ℕ) : ℤ :=
  if n_records < (if default_temporal_resolution then 3 else 2) then 1
  else if n_records < (if default_temporal_resolution then 6 else 4) then 2
  else 3

/-- The per-day weight table as stated by the spec. -/
def spec_day_weight (tier solar_elevation_class : ℤ) : ℚ :=
  if tier = 1 then
    (if solar_elevation_class = 1 then 0.1
     else if solar_elevation_class = 2 then 0.75 else 0.75)
  else if tier = 2 then
    (if solar_elevation_class = 1 then 0.5
     else if solar_elevation_class = 2 then 0.75 else 1.0)
  else
    (if solar_elevation_class = 1 then 0.75
     else if solar_elevation_class = 2 then 1.0 else 1.0)

/-- The per-image weight table as stated by the spec: it differs from the
per-day table at tier 1 / class 1 (0.5) and tier 1 / class 3 (1.0). -/
def spec_per_image_weight (tier solar_elevation_class : ℤ) : ℚ :=
  if tier = 1 then
    (if solar_elevation_class = 1 then 0.5
     else if solar_elevation_class = 2 then 0.75 else 1.0)
  else spec_day_weight tier solar_elevation_class

/-! ## Temporal resolution classification (app.py lines 304-310) -/

/-- Classification of default vs sparse temporal resolution (app.py lines
307-310): `default_temporal_resolution = False` exactly when
`len(r_list) > 1 and (meantime_resolution.get('hours', 0) > 0 or
meantime_resolution.get('minutes', 30) > 30)`; a missing key falls back to
the `.get` default. -/
def classify_default_temporal_resolution (n_records : ℕ)
    (mean_hours mean_minutes : Option ℤ) : Bool :=
  if 1 < n_records ∧ (0 < mean_hours.getD 0 ∨ 30 < mean_minutes.getD 30) then
    false
  else
    true

/-! ## Disable-weighting toggle (app.py lines 390-395) -/

/-- The FlagPenalty entries of the flags configuration: an enabled value
and a penalty multiplier (the source spells the key `penality_value`). -/
structure FlagPenalty where
  value : Bool
  penality_value : ℚ
deriving DecidableEq

/-- The disable-weighting rewrite (app.py line 395): when the apply-weights
toggle is off, every entry is rebuilt with its `value` kept and its
`penality_value` set to 0. -/
def disable_weighting_penalties (d : List (String × FlagPenalty)) :
    List (String × FlagPenalty) :=
  d.map (fun kv => (kv.1, { value := kv.2.value, penality_value := 0 }))

/-! ## Mean time resolution formatting (app.py lines 332 and 344) -/

/-- Python `str(n).zfill(2)` for a natural number. -/
def zfill2 (n : ℕ) : String :=
  if (toString n).length < 2 then "0" ++ toString n else toString n

/-- The on-screen TIME RESOLUTION display (app.py line 344). The source
interpolates the hours value into both the hours field and the minutes
field; the minutes value is never read on this path. -/
def display_time_resolution (hours _minutes : ℕ) : String :=
  zfill2 hours ++ ":" ++ zfill2 hours

/-- The meantime_resolution update string (app.py line 332), which formats
hours and minutes symmetrically as HH:MM:00. -/
def meantime_resolution_update (hours minutes : ℕ) : String :=
  zfill2 hours ++ ":" ++ zfill2 minutes ++ ":00"

/-! ## Values stored in the time-series row dicts

The per-ROI parameter dicts of the annual pipeline mix floats/ints,
booleans and Python `None`; `PVal` covers them.  Python `==` identifies
booleans with 0/1 but never equates `None` with a number, which `pyEq`
reproduces. -/

/-- A value in a record/row dict: a number, a boolean, or Python None. -/
inductive PVal where
  | num (q : ℚ)
  | boolv (b : Bool)
  | null
deriving DecidableEq

/-- Numeric view of a value, for Python `==` (bool is an int subclass). -/
def PVal.toRatVal : PVal → Option ℚ
  | num q => some q
  | boolv b => some (if b then 1 else 0)
  | null => none

/-- Python `==` on the values occurring in the row dicts. -/
def pyEq (a b : PVal) : Bool :=
  match a.toRatVal, b.toRatVal with
  | some x, some y => x == y
  | none, none => true
  | _, _ => false

/-- Whether the character list `p` is an initial segment of `s`. -/
def charsBeginWith : List Char → List Char → Bool
  | _, [] => true
  | [], _ :: _ => false
  | c :: cs, p :: ps => c == p && charsBeginWith cs ps

/-- Whether `p` occurs as a contiguous segment of `s`. -/
def charsContain (s p : List Char) : Bool :=
  match s with
  | [] => charsBeginWith [] p
  | _ :: rest => charsBeginWith s p || charsContain rest p

/-- Python `pattern in s` substring containment. -/
def strContains (s pattern : String) : Bool :=
  charsContain s.data pattern.data

/-! ## Time-series row assembly (app.py lines 549-602)

`roi_ts_dict` is filled per day-of-year and per ROI from the merged result
parameters (statistics from `process_records_for_roi` followed by the
QFLAG entries); a row whose `L3_<roi>_GCC_value` equals 0 then has its
columns overwritten with `None` in a second loop.  The Python local
`column_name` persists across loop iterations, so the embedding threads it
through every step; a `KeyError` is embedded as `none`. -/

/-- One iteration of the filling loop (app.py lines 560-567): a parameter
whose name contains `QFLAG_` (other than `QFLAG_weight`) is stored under
its own name; other parameters outside the exclusion list are stored under
`L3_<roi>_<name>`.  Returns the updated row and `column_name`. -/
def fill_param_step (roi : String)
    (acc : List (String × PVal) × String) (p : String × PVal) :
    List (String × PVal) × String :=
  if strContains p.1 ("QFLAG_") && !(["QFLAG_weight"].contains p.1) then
    (dinsert p.1 p.2 acc.1, p.1)
  else if !(["weights_used", "QFLAG_weight",
      "iflag_disable_for_processing"].contains p.1) then
    (dinsert (("L3_" ++ roi ++ "_") ++ p.1) p.2 acc.1,
      ("L3_" ++ roi ++ "_") ++ p.1)
  else acc

/-- The filling loop over one ROI's parameters. -/
def fill_roi_params (roi : String) (params : List (String × PVal))
    (acc : List (String × PVal) × String) :
    List (String × PVal) × String :=
  params.foldl (fill_param_step roi) acc

/-- One iteration of the nulling loop (app.py lines 569-576): the branch
structure only updates `column_name` (the QFLAG branch is `pass`, keeping
the stale value), and the write `roi_ts_dict[doy][column_name] = None`
happens unconditionally afterwards. -/
def null_param_step (roi : String)
    (acc : List (String × PVal) × String) (field : String) :
    List (String × PVal) × String :=
  let cn :=
    if strContains field ("QFLAG_") && !(["QFLAG_weight"].contains field) then
      acc.2
    else if !(["weights_used", "QFLAG_weight",
        "iflag_disable_for_processing"].contains field) then
      ("L3_" ++ roi ++ "_") ++ field
    else acc.2
  (dinsert cn PVal.null acc.1, cn)

/-- The nulling loop over one ROI's parameter names. -/
def null_roi_params (roi : String) (fields : List String)
    (acc : List (String × PVal) × String) :
    List (String × PVal) × String :=
  fields.foldl (null_param_step roi) acc

/-- Processing of one (day, ROI) pair (app.py lines 556-576): fill the
row from the parameters, then look up `L3_<roi>_GCC_value` (`KeyError`
if absent, embedded as `none`); if it compares Python-equal to 0, run the
nulling loop over the parameter names. -/
def process_roi_row (roi : String) (params : List (String × PVal))
    (row : List (String × PVal)) (cn : String) :
    Option (List (String × PVal) × String) :=
  let filled := fill_roi_params roi params (row, cn)
  match dlookup (("L3_" ++ roi ++ "_") ++ "GCC_value") filled.1 with
  | none => none
  | some v =>
    if pyEq v (PVal.num 0) then
      some (null_roi_params roi (params.map Prod.fst) filled)
    else
      some filled

/-- Modelled from the spec: the Weighted Aggregation Engine (§4.5),
implemented by `phenocams.process_records_for_roi` /
`calculate_roi_weighted_means_and_stds_per_record` in the external
`sstc_core` package, which is not under src. Each contributing record is a
triple (value, QFLAG weight, penalty); the weighted mean is
Σ(value·weight·penalty) / Σ(weight·penalty), and a zero denominator yields
an explicit missing value, embedded as `none`. -/
def weighted_mean (records : List (ℚ × ℚ × ℚ)) : Option ℚ :=
  let den := (records.map (fun r => r.2.1 * r.2.2)).sum
  if den = 0 then none
  else some ((records.map (fun r => r.1 * (r.2.1 * r.2.2))).sum / den)

/-- Number of calendar days of a year (app.py line 551). -/
def days_in_year (year : ℕ) : ℕ :=
  if year % 4 = 0 ∧ (year % 100 ≠ 0 ∨ year % 400 = 0) then 366 else 365

/-- `roi_ts_dict = {day: {} for day in range(1, days_in_year + 1)}`
(app.py line 553). -/
def init_roi_ts (year : ℕ) : List (ℕ × List (String × PVal)) :=
  (List.range' 1 (days_in_year year)).map (fun d => (d, []))

/-- In-place replacement of one day's row dict. -/
def update_day (doy : ℕ) (row : List (String × PVal))
    (tbl : List (ℕ × List (String × PVal))) :
    List (ℕ × List (String × PVal)) :=
  tbl.map (fun e => if e.1 == doy then (e.1, row) else e)

/-- Processing of all ROIs of one day (inner loop of app.py line 558). -/
def process_day_rois (rois : List (String × List (String × PVal)))
    (row : List (String × PVal)) (cn : String) :
    Option (List (String × PVal) × String) :=
  rois.foldlM (fun acc r => process_roi_row r.1 r.2 acc.1 acc.2) (row, cn)

/-- One iteration of the outer loop over `results.items()` (app.py line
556): `roi_ts_dict[doy]` raises `KeyError` when the day is not a key,
embedded as `none`. -/
def fill_results_step
    (acc : List (ℕ × List (String × PVal)) × String)
    (e : ℕ × List (String × List (String × PVal))) :
    Option (List (ℕ × List (String × PVal)) × String) :=
  match (acc.1.find? (fun x => x.1 == e.1)).map Prod.snd with
  | none => none
  | some row0 =>
    (process_day_rois e.2 row0 acc.2).map
      (fun rc => (update_day e.1 rc.1 acc.1, rc.2))

/-- The outer loop over the per-day results. -/
def fill_results
    (results : List (ℕ × List (String × List (String × PVal))))
    (tbl : List (ℕ × List (String × PVal))) :
    Option (List (ℕ × List (String × PVal)) × String) :=
  results.foldlM fill_results_step (tbl, "")

/-- One row of the final time-series DataFrame: the `year` and
`day_of_year` columns are always filled, the remaining cells are the
day's dict (an absent cell is a missing value). -/
structure TsRow where
  year : String
  day_of_year : ℕ
  cells : List (String × PVal)
deriving DecidableEq

/-- The assembled annual table (app.py lines 580-602): the filled
`roi_ts_dict` already has the keys 1..days_in_year in ascending order, so
`sort_index` and `reindex(range(1, days_in_year + 1))` are the identity;
`df['year'] = str(year)` and `df['day_of_year'] = df.index` fill the two
leading columns of every row. -/
def build_annual_table (year : ℕ)
    (results : List (ℕ × List (String × List (String × PVal)))) :
    Option (List TsRow) :=
  (fill_results results (init_roi_ts year)).map
    (fun tc => tc.1.map (fun e =>
      { year := toString year, day_of_year := e.1, cells := e.2 }))

/-- The per-day QFLAG computation of the annual pipeline (app.py lines
441-518): `is_per_image` and `default_temporal_resolution` are fixed to
`False` before the loop (lines 442-443), the chained conditional of lines
467-507 runs with them, and lines 514-518 store the `QFLAG_dict` entry. -/
def qflag_day_entries (solar_elevation_class : ℤ) (n_records : ℕ) :
    Option (List (String × PVal)) :=
  let is_per_image := false
  let default_temporal_resolution := false
  (compute_QFLAG default_temporal_resolution is_per_image n_records
      solar_elevation_class).map
    (fun qw =>
      [("QFLAG_value", PVal.num (qw.1 : ℚ)),
       ("QFLAG_weight", PVal.num qw.2),
       ("QFLAG_default_temporal_resolution",
         PVal.boolv default_temporal_resolution),
       ("QFLAG_is_per_image", PVal.boolv is_per_image)])

/-- The invariant the annual table keeps on its QFLAG flag columns:
wherever a `QFLAG_default_temporal_resolution` or `QFLAG_is_per_image`
cell is present and non-null, it is `False`. -/
def flag_columns_ok (row : List (String × PVal)) : Prop :=
  ∀ v : PVal,
    (dlookup ("QFLAG_default_temporal_resolution") row = some v ∨
      dlookup ("QFLAG_is_per_image") row = some v) →
    v = PVal.boolv false ∨ v = PVal.null

/-! ## Flag diff reconciliation (components.py lines 175-188,
utils.py lines 99-145) -/

/-- Modelled from the spec: `utils.have_values_changed` of the external
`sstc_core` package (not under src), used by `quality_flags_management` —
the mapping containing only the keys whose value differs between the
original and the edited flag mapping (§4.6). -/
def have_values_changed (original edited : List (String × Bool)) :
    List (String × Bool) :=
  edited.filter (fun kv => dlookup kv.1 original != some kv.2)

/-- The flag reconciliation of `quality_flags_management` (components.py
lines 177-178): diff the original against the edited mapping, then set
`flags_confirmed = True`. -/
def quality_flags_reconcile (flags_dict edited : List (String × Bool)) :
    List (String × Bool) :=
  dinsert ("flags_confirmed") true (have_values_changed flags_dict edited)

/-- `dataframe_to_flags_dict` (utils.py lines 99-145): walk the edited
flags DataFrame (rows = flag names, columns = ROIs) and keep only the
entries whose boolean differs from `original` under the key
`<roi>_iflag_<flag_name>`; keys absent from `original` are skipped. -/
def dataframe_to_flags_dict (df : List (String × List (String × Bool)))
    (original : List (String × Bool)) : List (String × Bool) :=
  df.foldl (fun acc fr =>
    fr.2.foldl (fun acc2 rv =>
      match dlookup ((rv.1 ++ "_iflag_") ++ fr.1) original with
      | some w =>
        if rv.2 != w then
          dinsert ((rv.1 ++ "_iflag_") ++ fr.1) rv.2 acc2
        else acc2
      | none => acc2) acc) []

/-! ## Helper lemmas -/

theorem count_tier_mem (dtr : Bool) (n : ℕ) :
    count_tier dtr n = 1 ∨ count_tier dtr n = 2 ∨ count_tier dtr n = 3 := by
  unfold count_tier
  split_ifs <;> simp

theorem compute_QFLAG_eq (dtr ppi : Bool) (n : ℕ) (c : ℤ)
    (hc : c = 1 ∨ c = 2 ∨ c = 3) :
    compute_QFLAG dtr ppi n c =
      some (10 * count_tier dtr n + c,
        if ppi then spec_per_image_weight (count_tier dtr n) c
        else spec_day_weight (count_tier dtr n) c) := by
  rcases hc with rfl | rfl | rfl <;> cases dtr <;>
    by_cases h1 : n < (2 : ℕ) <;> by_cases h2 : n < (3 : ℕ) <;>
    by_cases h3 : n < (4 : ℕ) <;> by_cases h4 : n < (6 : ℕ) <;>
    first
      | omega
      | (simp only [compute_QFLAG, count_tier, spec_day_weight,
          spec_per_image_weight, if_true, if_false, Bool.not_true,
          Bool.not_false, ite_true, ite_false, ge_iff_le, Bool.false_eq_true]
         norm_num [h1, h2, h3, h4, Nat.le_of_not_lt]
         try (cases ppi <;> norm_num))

theorem compute_QFLAG_none_of_invalid (dtr ppi : Bool) (n : ℕ) (c : ℤ)
    (hc : ¬(c = 1 ∨ c = 2 ∨ c = 3)) :
    compute_QFLAG dtr ppi n c = none := by
  have h1 : c ≠ 1 := fun h => hc (Or.inl h)
  have h2 : c ≠ 2 := fun h => hc (Or.inr (Or.inl h))
  have h3 : c ≠ 3 := fun h => hc (Or.inr (Or.inr h))
  simp only [compute_QFLAG, h1, h2, h3, and_false, if_false]

theorem dlookup_dinsert_self {α : Type} (k : String) (v : α)
    (d : List (String × α)) : dlookup k (dinsert k v d) = some v := by
  simp [dlookup, dinsert]

theorem dlookup_dinsert_ne {α : Type} {k k' : String} (h : k' ≠ k)
    (v : α) (d : List (String × α)) :
    dlookup k' (dinsert k v d) = dlookup k' d := by
  simp [dlookup, dinsert, List.find?_cons, Ne.symm h]

theorem dlookup_eq_of_mem_nodup {X : List (String × Bool)}
    (hnd : (X.map Prod.fst).Nodup) {kv : String × Bool} (hm : kv ∈ X) :
    dlookup kv.1 X = some kv.2 := by
  induction X with
  | nil => cases hm
  | cons a t ih =>
    rcases List.mem_cons.mp hm with rfl | hmt
    · simp [dlookup]
    · have hka : a.1 ≠ kv.1 := by
        intro he
        exact (List.nodup_cons.mp hnd).1 (he ▸ List.mem_map_of_mem Prod.fst hmt)
      have := ih (List.nodup_cons.mp hnd).2 hmt
      simpa [dlookup, List.find?_cons, hka] using this

theorem have_values_changed_self (X : List (String × Bool))
    (hnd : (X.map Prod.fst).Nodup) : have_values_changed X X = [] := by
  rw [have_values_changed, List.filter_eq_nil_iff]
  intro kv hm
  simp [dlookup_eq_of_mem_nodup hnd hm]

theorem dataframe_diff_inner_eq (fname : String)
    (cols : List (String × Bool)) (original : List (String × Bool)) :
    ∀ acc : List (String × Bool),
    (∀ rv ∈ cols, ∀ w,
      dlookup ((rv.1 ++ "_iflag_") ++ fname) original = some w → w = rv.2) →
    cols.foldl (fun acc2 rv =>
      match dlookup ((rv.1 ++ "_iflag_") ++ fname) original with
      | some w =>
        if rv.2 != w then
          dinsert ((rv.1 ++ "_iflag_") ++ fname) rv.2 acc2
        else acc2
      | none => acc2) acc = acc := by
  induction cols with
  | nil => intro acc _; rfl
  | cons rv rest ih =>
    intro acc hagree
    rw [List.foldl_cons]
    have hstep :
        (match dlookup ((rv.1 ++ "_iflag_") ++ fname) original with
        | some w =>
          if rv.2 != w then
            dinsert ((rv.1 ++ "_iflag_") ++ fname) rv.2 acc
          else acc
        | none => acc) = acc := by
      rcases hw : dlookup ((rv.1 ++ "_iflag_") ++ fname) original with _ | w
      · rfl
      · have := hagree rv (List.mem_cons_self rv rest) w hw
        simp [this]
    rw [hstep]
    exact ih acc (fun rv2 hm w hw => hagree rv2 (List.mem_cons_of_mem rv hm) w hw)

theorem null_roi_params_cons (roi f : String) (rest : List String)
    (acc : List (String × PVal) × String) :
    null_roi_params roi (f :: rest) acc =
      null_roi_params roi rest (null_param_step roi acc f) := rfl

theorem null_lookup_or (roi k : String) (fields : List String) :
    ∀ (acc : List (String × PVal) × String) (v : PVal),
    dlookup k (null_roi_params roi fields acc).1 = some v →
    v = PVal.null ∨ dlookup k acc.1 = some v := by
  induction fields with
  | nil => intro acc v h; exact Or.inr h
  | cons f rest ih =>
    intro acc v h
    rw [null_roi_params_cons] at h
    rcases ih _ v h with hnull | hstep
    · exact Or.inl hnull
    · have hpair : (null_param_step roi acc f).1 =
          dinsert ((null_param_step roi acc f).2) PVal.null acc.1 := rfl
      by_cases hk : k = (null_param_step roi acc f).2
      · rw [hpair, hk, dlookup_dinsert_self] at hstep
        exact Or.inl (Option.some.inj hstep).symm
      · rw [hpair, dlookup_dinsert_ne hk] at hstep
        exact Or.inr hstep

theorem null_keeps_null (roi k : String) (fields : List String) :
    ∀ acc : List (String × PVal) × String,
    dlookup k acc.1 = some PVal.null →
    dlookup k (null_roi_params roi fields acc).1 = some PVal.null := by
  induction fields with
  | nil => intro acc h; exact h
  | cons f rest ih =>
    intro acc h
    rw [null_roi_params_cons]
    apply ih
    have hpair : (null_param_step roi acc f).1 =
        dinsert ((null_param_step roi acc f).2) PVal.null acc.1 := rfl
    by_cases hk : k = (null_param_step roi acc f).2
    · rw [hpair, hk]; exact dlookup_dinsert_self _ _ _
    · rw [hpair, dlookup_dinsert_ne hk]; exact h

theorem null_writes_gcc (roi : String) (fields : List String) :
    ∀ acc : List (String × PVal) × String, ("GCC_value") ∈ fields →
    dlookup (("L3_" ++ roi ++ "_") ++ "GCC_value")
      (null_roi_params roi fields acc).1 = some PVal.null := by
  induction fields with
  | nil => intro acc h; cases h
  | cons f rest ih =>
    intro acc hmem
    rw [null_roi_params_cons]
    by_cases hf : f = "GCC_value"
    · subst hf
      apply null_keeps_null
      have hstep : null_param_step roi acc ("GCC_value") =
          (dinsert (("L3_" ++ roi ++ "_") ++ "GCC_value") PVal.null acc.1,
            ("L3_" ++ roi ++ "_") ++ "GCC_value") := rfl
      rw [hstep]
      exact dlookup_dinsert_self _ _ _
    · rcases List.mem_cons.mp hmem with heq | hmt
      · exact absurd heq.symm hf
      · exact ih _ hmt

theorem update_day_map_fst (doy : ℕ) (row : List (String × PVal))
    (tbl : List (ℕ × List (String × PVal))) :
    (update_day doy row tbl).map Prod.fst = tbl.map Prod.fst := by
  unfold update_day
  rw [List.map_map]
  apply List.map_congr_left
  intro e _
  by_cases h : e.1 = doy <;> simp [h]

theorem mem_update_day {doy : ℕ} {row : List (String × PVal)}
    {tbl : List (ℕ × List (String × PVal))} {p : ℕ × List (String × PVal)}
    (h : p ∈ update_day doy row tbl) :
    p ∈ tbl ∨ (p.1 = doy ∧ p.2 = row) := by
  unfold update_day at h
  rcases List.mem_map.mp h with ⟨e, he, heq⟩
  by_cases hbe : (e.1 == doy) = true
  · rw [if_pos hbe] at heq
    right
    rw [← heq]
    exact ⟨by simpa using hbe, rfl⟩
  · rw [if_neg hbe] at heq
    exact Or.inl (heq ▸ he)

theorem fill_fold_map_fst :
    ∀ (results : List (ℕ × List (String × List (String × PVal))))
      (acc : List (ℕ × List (String × PVal)) × String)
      (out : List (ℕ × List (String × PVal)) × String),
    results.foldlM fill_results_step acc = some out →
    out.1.map Prod.fst = acc.1.map Prod.fst := by
  intro results
  induction results with
  | nil =>
    intro acc out h
    simp only [List.foldlM_nil] at h
    rw [← Option.some.inj h]
  | cons e rest ih =>
    intro acc out h
    rw [List.foldlM_cons] at h
    rcases Option.bind_eq_some.mp h with ⟨mid, hmid, hrest⟩
    rw [ih mid out hrest]
    unfold fill_results_step at hmid
    rcases hrow : (acc.1.find? (fun x => x.1 == e.1)).map Prod.snd
        with _ | row0
    · rw [hrow] at hmid
      exact absurd hmid (by simp)
    · rw [hrow] at hmid
      rcases Option.map_eq_some'.mp hmid with ⟨rc, _, hmid2⟩
      rw [← hmid2]
      exact update_day_map_fst e.1 rc.1 acc.1

theorem fill_fold_mem :
    ∀ (results : List (ℕ × List (String × List (String × PVal))))
      (acc : List (ℕ × List (String × PVal)) × String)
      (out : List (ℕ × List (String × PVal)) × String),
    results.foldlM fill_results_step acc = some out →
    ∀ p ∈ out.1, p ∈ acc.1 ∨ p.1 ∈ results.map Prod.fst := by
  intro results
  induction results with
  | nil =>
    intro acc out h p hp
    simp only [List.foldlM_nil] at h
    rw [← Option.some.inj h] at hp
    exact Or.inl hp
  | cons e rest ih =>
    intro acc out h p hp
    rw [List.foldlM_cons] at h
    rcases Option.bind_eq_some.mp h with ⟨mid, hmid, hrest⟩
    rcases ih mid out hrest p hp with hm | hk
    · unfold fill_results_step at hmid
      rcases hrow : (acc.1.find? (fun x => x.1 == e.1)).map Prod.snd
          with _ | row0
      · rw [hrow] at hmid
        exact absurd hmid (by simp)
      · rw [hrow] at hmid
        rcases Option.map_eq_some'.mp hmid with ⟨rc, _, hmid2⟩
        rw [← hmid2] at hm
        rcases mem_update_day hm with hacc | ⟨hdoy, _⟩
        · exact Or.inl hacc
        · exact Or.inr (by simp [hdoy])
    · exact Or.inr (List.mem_cons_of_mem e.1 hk)

theorem dlookup_cons_of_ne {α : Type} {k a : String}
    (hne : (a == k) = false) (v : α) (d : List (String × α)) :
    dlookup k ((a, v) :: d) = dlookup k d := by
  simp [dlookup, List.find?_cons, hne]

theorem count_tier_false (n : ℕ) :
    count_tier false n =
      (if n < 2 then (1 : ℤ) else if n < 4 then 2 else 3) := by
  simp [count_tier]

theorem fill_roi_params_append (roi : String)
    (l1 l2 : List (String × PVal)) (acc : List (String × PVal) × String) :
    fill_roi_params roi (l1 ++ l2) acc =
      fill_roi_params roi l2 (fill_roi_params roi l1 acc) := by
  simp [fill_roi_params, List.foldl_append]

theorem fill_qflag_entries (roi : String)
    (acc : List (String × PVal) × String) (q w : ℚ) :
    fill_roi_params roi
      [("QFLAG_value", PVal.num q), ("QFLAG_weight", PVal.num w),
       ("QFLAG_default_temporal_resolution", PVal.boolv false),
       ("QFLAG_is_per_image", PVal.boolv false)] acc =
      (("QFLAG_is_per_image", PVal.boolv false) ::
        ("QFLAG_default_temporal_resolution", PVal.boolv false) ::
        ("QFLAG_value", PVal.num q) :: acc.1,
       ("QFLAG_is_per_image")) := rfl

theorem qflag_day_entries_shape (c : ℤ) (n : ℕ) (e : List (String × PVal))
    (h : qflag_day_entries c n = some e) :
    ∃ q w : ℚ, e =
      [("QFLAG_value", PVal.num q), ("QFLAG_weight", PVal.num w),
       ("QFLAG_default_temporal_resolution", PVal.boolv false),
       ("QFLAG_is_per_image", PVal.boolv false)] := by
  unfold qflag_day_entries at h
  rcases Option.map_eq_some'.mp h with ⟨qw, _, rfl⟩
  exact ⟨(qw.1 : ℚ), qw.2, rfl⟩

theorem flag_ok_process (roi : String) (stats row : List (String × PVal))
    (cn : String) (q w : ℚ) (out : List (String × PVal) × String)
    (hproc : process_roi_row roi
      (stats ++
        [("QFLAG_value", PVal.num q), ("QFLAG_weight", PVal.num w),
         ("QFLAG_default_temporal_resolution", PVal.boolv false),
         ("QFLAG_is_per_image", PVal.boolv false)]) row cn = some out) :
    flag_columns_ok out.1 := by
  have hfe := (fill_roi_params_append roi stats
    [("QFLAG_value", PVal.num q), ("QFLAG_weight", PVal.num w),
     ("QFLAG_default_temporal_resolution", PVal.boolv false),
     ("QFLAG_is_per_image", PVal.boolv false)] (row, cn)).trans
    (fill_qflag_entries roi (fill_roi_params roi stats (row, cn)) q w)
  have hd1 : dlookup ("QFLAG_default_temporal_resolution")
      (fill_roi_params roi
        (stats ++
          [("QFLAG_value", PVal.num q), ("QFLAG_weight", PVal.num w),
           ("QFLAG_default_temporal_resolution", PVal.boolv false),
           ("QFLAG_is_per_image", PVal.boolv false)]) (row, cn)).1 =
      some (PVal.boolv false) := by
    rw [show (fill_roi_params roi
        (stats ++
          [("QFLAG_value", PVal.num q), ("QFLAG_weight", PVal.num w),
           ("QFLAG_default_temporal_resolution", PVal.boolv false),
           ("QFLAG_is_per_image", PVal.boolv false)]) (row, cn)).1 =
        ("QFLAG_is_per_image", PVal.boolv false) ::
          ("QFLAG_default_temporal_resolution", PVal.boolv false) ::
          ("QFLAG_value", PVal.num q) ::
          (fill_roi_params roi stats (row, cn)).1
      from congrArg Prod.fst hfe]
    rw [dlookup_cons_of_ne (by decide)]
    exact dlookup_dinsert_self _ _ _
  have hd2 : dlookup ("QFLAG_is_per_image")
      (fill_roi_params roi
        (stats ++
          [("QFLAG_value", PVal.num q), ("QFLAG_weight", PVal.num w),
           ("QFLAG_default_temporal_resolution", PVal.boolv false),
           ("QFLAG_is_per_image", PVal.boolv false)]) (row, cn)).1 =
      some (PVal.boolv false) := by
    rw [show (fill_roi_params roi
        (stats ++
          [("QFLAG_value", PVal.num q), ("QFLAG_weight", PVal.num w),
           ("QFLAG_default_temporal_resolution", PVal.boolv false),
           ("QFLAG_is_per_image", PVal.boolv false)]) (row, cn)).1 =
        ("QFLAG_is_per_image", PVal.boolv false) ::
          ("QFLAG_default_temporal_resolution", PVal.boolv false) ::
          ("QFLAG_value", PVal.num q) ::
          (fill_roi_params roi stats (row, cn)).1
      from congrArg Prod.fst hfe]
    exact dlookup_dinsert_self _ _ _
  simp only [process_roi_row] at hproc
  rcases hgcc : dlookup (("L3_" ++ roi ++ "_") ++ "GCC_value")
      (fill_roi_params roi
        (stats ++
          [("QFLAG_value", PVal.num q), ("QFLAG_weight", PVal.num w),
           ("QFLAG_default_temporal_resolution", PVal.boolv false),
           ("QFLAG_is_per_image", PVal.boolv false)]) (row, cn)).1
      with _ | gv
  · rw [hgcc] at hproc
    exact absurd hproc (by simp)
  · rw [hgcc] at hproc
    dsimp only at hproc
    by_cases hz : pyEq gv (PVal.num 0) = true
    · rw [if_pos hz] at hproc
      have hout := Option.some.inj hproc
      intro v hv
      rw [← hout] at hv
      rcases hv with hv | hv
      · rcases null_lookup_or roi ("QFLAG_default_temporal_resolution")
            _ _ v hv with hnull | hfill
        · exact Or.inr hnull
        · rw [hd1] at hfill
          exact Or.inl (Option.some.inj hfill).symm
      · rcases null_lookup_or roi ("QFLAG_is_per_image")
            _ _ v hv with hnull | hfill
        · exact Or.inr hnull
        · rw [hd2] at hfill
          exact Or.inl (Option.some.inj hfill).symm
    · rw [if_neg hz] at hproc
      have hout := Option.some.inj hproc
      intro v hv
      rw [← hout] at hv
      rcases hv with hv | hv
      · rw [hd1] at hv
        exact Or.inl (Option.some.inj hv).symm
      · rw [hd2] at hv
        exact Or.inl (Option.some.inj hv).symm

theorem flag_ok_day (rois : List (String × List (String × PVal))) :
    ∀ (row : List (String × PVal)) (cn : String)
      (out : List (String × PVal) × String),
    flag_columns_ok row →
    (∀ rp ∈ rois, ∃ (stats : List (String × PVal)) (c : ℤ) (n : ℕ)
      (e : List (String × PVal)),
      qflag_day_entries c n = some e ∧ rp.2 = stats ++ e) →
    process_day_rois rois row cn = some out →
    flag_columns_ok out.1 := by
  induction rois with
  | nil =>
    intro row cn out hrow _ hp
    simp only [process_day_rois, List.foldlM_nil] at hp
    rw [← Option.some.inj hp]
    exact hrow
  | cons r rest ih =>
    intro row cn out hrow hshape hp
    simp only [process_day_rois, List.foldlM_cons] at hp
    rcases Option.bind_eq_some.mp hp with ⟨mid, hmid, hrest⟩
    obtain ⟨stats, c, n, e, he, hp2⟩ :=
      hshape r (List.mem_cons_self r rest)
    obtain ⟨q, w, rfl⟩ := qflag_day_entries_shape c n e he
    rw [hp2] at hmid
    have hmidok := flag_ok_process r.1 stats row cn q w mid hmid
    exact ih mid.1 mid.2 out hmidok
      (fun rp hm => hshape rp (List.mem_cons_of_mem r hm)) hrest

theorem flag_ok_results
    (results : List (ℕ × List (String × List (String × PVal)))) :
    ∀ (acc : List (ℕ × List (String × PVal)) × String)
      (out : List (ℕ × List (String × PVal)) × String),
    (∀ p ∈ acc.1, flag_columns_ok p.2) →
    (∀ dr ∈ results, ∀ rp ∈ dr.2, ∃ (stats : List (String × PVal)) (c : ℤ)
      (n : ℕ) (e : List (String × PVal)),
      qflag_day_entries c n = some e ∧ rp.2 = stats ++ e) →
    results.foldlM fill_results_step acc = some out →
    ∀ p ∈ out.1, flag_columns_ok p.2 := by
  induction results with
  | nil =>
    intro acc out hacc _ h p hp
    simp only [List.foldlM_nil] at h
    rw [← Option.some.inj h] at hp
    exact hacc p hp
  | cons e rest ih =>
    intro acc out hacc hshape h p hp
    rw [List.foldlM_cons] at h
    rcases Option.bind_eq_some.mp h with ⟨mid, hmid, hrest⟩
    refine ih mid out ?_
      (fun dr hm => hshape dr (List.mem_cons_of_mem e hm)) hrest p hp
    unfold fill_results_step at hmid
    rcases hrow : (acc.1.find? (fun x => x.1 == e.1)).map Prod.snd
        with _ | row0
    · rw [hrow] at hmid
      exact absurd hmid (by simp)
    · rw [hrow] at hmid
      rcases Option.map_eq_some'.mp hmid with ⟨rc, hrc, hmid2⟩
      rcases Option.map_eq_some'.mp hrow with ⟨x, hfind, hx2⟩
      have hrow0 : flag_columns_ok row0 :=
        hx2 ▸ hacc x (List.mem_of_find?_eq_some hfind)
      have hrcok : flag_columns_ok rc.1 :=
        flag_ok_day e.2 row0 acc.2 rc hrow0
          (hshape e (List.mem_cons_self e rest)) hrc
      intro p2 hp2
      rw [← hmid2] at hp2
      rcases mem_update_day hp2 with hm2 | ⟨_, hsnd⟩
      · exact hacc p2 hm2
      · rw [hsnd]
        exact hrcok

/-! ## Claim theorems -/

/-- C1: for every valid input (n_records ≥ 0, solar elevation class in
{1,2,3}, boolean temporal resolution), the classifier selects the count
tier by the boundaries (3, 6) in default resolution and (2, 4) otherwise,
and returns `10 * tier + class`, which is one of the 9 codes
{11,12,13,21,22,23,31,32,33}. -/
theorem qflag_code_is_ten_tier_plus_class (dtr ppi : Bool) (n : ℕ) (c : ℤ)
    (hc : c = 1 ∨ c = 2 ∨ c = 3) :
    ∃ w : ℚ,
      compute_QFLAG dtr ppi n c = some (10 * count_tier dtr n + c, w) ∧
      (10 * count_tier dtr n + c) ∈
        ([11, 12, 13, 21, 22, 23, 31, 32, 33] : List ℤ) := by
  refine ⟨_, compute_QFLAG_eq dtr ppi n c hc, ?_⟩
  rcases count_tier_mem dtr n with ht | ht | ht <;>
    rcases hc with rfl | rfl | rfl <;> rw [ht] <;> simp

theorem qflag_code_witness :
    ∃ w : ℚ,
      compute_QFLAG true false 4 2 = some (10 * count_tier true 4 + 2, w) ∧
      (10 * count_tier true 4 + 2) ∈
        ([11, 12, 13, 21, 22, 23, 31, 32, 33] : List ℤ) :=
  qflag_code_is_ten_tier_plus_class true false 4 2 (Or.inr (Or.inl rfl))

/-- C2: for every valid (tier, solar elevation class, per-image mode)
combination, the classifier's weight equals the fixed table of the spec,
and the per-image and per-day weights differ exactly at tier 1 / class 1
and tier 1 / class 3. -/
theorem qflag_weight_table (dtr : Bool) (n : ℕ) (c : ℤ)
    (hc : c = 1 ∨ c = 2 ∨ c = 3) :
    ∃ (code : ℤ) (w_day w_img : ℚ),
      compute_QFLAG dtr false n c = some (code, w_day) ∧
      compute_QFLAG dtr true n c = some (code, w_img) ∧
      w_day = spec_day_weight (count_tier dtr n) c ∧
      w_img = spec_per_image_weight (count_tier dtr n) c ∧
      (w_img ≠ w_day ↔ count_tier dtr n = 1 ∧ (c = 1 ∨ c = 3)) := by
  refine ⟨10 * count_tier dtr n + c, _, _,
    compute_QFLAG_eq dtr false n c hc, compute_QFLAG_eq dtr true n c hc,
    rfl, rfl, ?_⟩
  rcases count_tier_mem dtr n with ht | ht | ht <;>
    rcases hc with rfl | rfl | rfl <;> rw [ht] <;>
    norm_num [spec_day_weight, spec_per_image_weight]

theorem qflag_weight_table_witness :
    ∃ (code : ℤ) (w_day w_img : ℚ),
      compute_QFLAG false false 1 1 = some (code, w_day) ∧
      compute_QFLAG false true 1 1 = some (code, w_img) ∧
      w_day = spec_day_weight (count_tier false 1) 1 ∧
      w_img = spec_per_image_weight (count_tier false 1) 1 ∧
      (w_img ≠ w_day ↔ count_tier false 1 = 1 ∧ ((1 : ℤ) = 1 ∨ (1 : ℤ) = 3)) :=
  qflag_weight_table false 1 1 (Or.inl rfl)

/-- C6: the classifier hits the `raise ValueError` branch (embedded as
`none`) exactly when the solar elevation class lies outside {1,2,3}; the
record-count tier is total over the naturals, so for every valid input the
error branch is unreachable. -/
theorem qflag_invalid_class_fails (dtr ppi : Bool) (n : ℕ) (c : ℤ) :
    compute_QFLAG dtr ppi n c = none ↔ ¬(c = 1 ∨ c = 2 ∨ c = 3) := by
  constructor
  · intro h hc
    rw [compute_QFLAG_eq dtr ppi n c hc] at h
    exact Option.noConfusion h
  · exact compute_QFLAG_none_of_invalid dtr ppi n c

/-- C3: the temporal resolution is classified non-default (sparse) iff
more than one record exists and the mean gap's hours component is present
and positive, or its minutes component is present and exceeds 30; in every
other case — a single record or missing components — it is default. -/
theorem temporal_resolution_sparse_iff (n : ℕ) (h m : Option ℤ) :
    classify_default_temporal_resolution n h m = false ↔
      (1 < n ∧ ((∃ x, h = some x ∧ 0 < x) ∨ ∃ y, m = some y ∧ 30 < y)) := by
  unfold classify_default_temporal_resolution
  cases h <;> cases m <;> (simp [Option.getD]; try omega)

/-- C8: with the disable-weighting toggle active, every flag's penalty is
set to 0 while every flag's key and enabled value are left unchanged. -/
theorem disable_weighting_zeroes_penalties_only
    (d : List (String × FlagPenalty)) :
    (disable_weighting_penalties d).map (fun kv => (kv.1, kv.2.value)) =
      d.map (fun kv => (kv.1, kv.2.value)) ∧
    ((disable_weighting_penalties d).all
      (fun kv => kv.2.penality_value == 0)) = true := by
  constructor
  · simp [disable_weighting_penalties]
  · simp [disable_weighting_penalties, List.all_eq_true]

/-- C7: applying the flag-diff reconciler to an identical pair (X, X)
yields exactly the mapping with the single entry flags_confirmed = True;
no flag key of X appears in the diff of a mapping against itself, and the
src-side DataFrame diff of unedited values against the original is empty. -/
theorem flag_diff_reconcile_self :
    (∀ X : List (String × Bool), (X.map Prod.fst).Nodup →
      quality_flags_reconcile X X = [(("flags_confirmed"), true)]) ∧
    (∀ (df : List (String × List (String × Bool)))
        (original : List (String × Bool)),
      (∀ fr ∈ df, ∀ rv ∈ fr.2, ∀ w,
        dlookup ((rv.1 ++ "_iflag_") ++ fr.1) original = some w → w = rv.2) →
      dataframe_to_flags_dict df original = []) := by
  constructor
  · intro X hnd
    rw [quality_flags_reconcile, have_values_changed_self X hnd]
    rfl
  · intro df original hagree
    rw [dataframe_to_flags_dict]
    induction df with
    | nil => rfl
    | cons fr rest ih =>
      rw [List.foldl_cons]
      rw [dataframe_diff_inner_eq fr.1 fr.2 original []
        (fun rv hm w hw => hagree fr (List.mem_cons_self fr rest) rv hm w hw)]
      exact ih (fun fr2 hm rv hm2 w hw =>
        hagree fr2 (List.mem_cons_of_mem fr hm) rv hm2 w hw)

theorem flag_diff_reconcile_self_witness :
    quality_flags_reconcile
        [("ROI_01_iflag_shadows", true), ("ROI_02_iflag_shadows", false)]
        [("ROI_01_iflag_shadows", true), ("ROI_02_iflag_shadows", false)] =
      [(("flags_confirmed"), true)] ∧
    dataframe_to_flags_dict
        [("shadows", [("ROI_01", true), ("ROI_02", false)])]
        [("ROI_01_iflag_shadows", true), ("ROI_02_iflag_shadows", false)] =
      [] := by
  constructor
  · exact flag_diff_reconcile_self.1
      [("ROI_01_iflag_shadows", true), ("ROI_02_iflag_shadows", false)]
      (by decide)
  · exact flag_diff_reconcile_self.2
      [("shadows", [("ROI_01", true), ("ROI_02", false)])]
      [("ROI_01_iflag_shadows", true), ("ROI_02_iflag_shadows", false)]
      (by decide)

/-- C4 (amended): with the aggregator modelled from the spec, a zero
denominator (every contributing record's combined weight 0) yields an
explicit missing value, and the app propagates it (a missing GCC cell
never compares equal to 0); but the app treats a GCC value of exactly 0 as
its no-data sentinel: whenever the filled row's `L3_<roi>_GCC_value` is 0,
the row is run through the nulling loop and that statistic is replaced by
null, so an output row never carries a GCC value of 0. -/
theorem weighted_mean_null_and_gcc_sentinel :
    (∀ records : List (ℚ × ℚ × ℚ),
      (∀ r ∈ records, r.2.1 * r.2.2 = 0) → weighted_mean records = none) ∧
    (∀ (roi : String) (params row : List (String × PVal)) (cn : String)
        (out : List (String × PVal) × String),
      ("GCC_value") ∈ params.map Prod.fst →
      process_roi_row roi params row cn = some out →
      dlookup (("L3_" ++ roi ++ "_") ++ "GCC_value") out.1 ≠
        some (PVal.num 0) ∧
      (dlookup (("L3_" ++ roi ++ "_") ++ "GCC_value")
          (fill_roi_params roi params (row, cn)).1 = some (PVal.num 0) →
        dlookup (("L3_" ++ roi ++ "_") ++ "GCC_value") out.1 =
          some PVal.null)) := by
  constructor
  · intro records hz
    have hden : (records.map (fun r => r.2.1 * r.2.2)).sum = 0 :=
      List.sum_eq_zero (by
        intro x hx
        rcases List.mem_map.mp hx with ⟨r, hr, rfl⟩
        exact hz r hr)
    simp [weighted_mean, hden]
  · intro roi params row cn out hmem hproc
    simp only [process_roi_row] at hproc
    rcases hgcc : dlookup (("L3_" ++ roi ++ "_") ++ "GCC_value")
        (fill_roi_params roi params (row, cn)).1 with _ | v
    · rw [hgcc] at hproc
      exact absurd hproc (by simp)
    · rw [hgcc] at hproc
      dsimp only at hproc
      by_cases hz : pyEq v (PVal.num 0) = true
      · rw [if_pos hz] at hproc
        have hout := Option.some.inj hproc
        have hnull := null_writes_gcc roi (params.map Prod.fst)
          (fill_roi_params roi params (row, cn)) hmem
        constructor
        · rw [← hout, hnull]
          simp
        · intro _
          rw [← hout]
          exact hnull
      · rw [if_neg hz] at hproc
        have hout := Option.some.inj hproc
        have hv0 : v ≠ PVal.num 0 := by
          intro h
          subst h
          exact hz (by simp [pyEq, PVal.toRatVal])
        constructor
        · rw [← hout, hgcc]
          simp [hv0]
        · intro habs
          exact absurd (Option.some.inj habs) hv0

/-- C4 counterexample: a genuinely zero aggregate — weighted mean 0 with a
positive combined weight, a valid physical value — is silently replaced:
the app's GCC-zero sentinel check sends the ROI's statistic columns
(including a perfectly valid sibling statistic) to null. -/
theorem zero_gcc_result_is_replaced :
    weighted_mean [((0 : ℚ), 1, 1)] = some 0 ∧
    process_roi_row ("ROI_01")
        [("GCC_value", PVal.num 0), ("RCC_value", PVal.num 1)] [] "" =
      some ([("L3_ROI_01_RCC_value", PVal.null),
             ("L3_ROI_01_GCC_value", PVal.null),
             ("L3_ROI_01_RCC_value", PVal.num 1),
             ("L3_ROI_01_GCC_value", PVal.num 0)],
            ("L3_ROI_01_RCC_value")) ∧
    dlookup ("L3_ROI_01_GCC_value")
        ([("L3_ROI_01_RCC_value", PVal.null),
          ("L3_ROI_01_GCC_value", PVal.null),
          ("L3_ROI_01_RCC_value", PVal.num 1),
          ("L3_ROI_01_GCC_value", PVal.num 0)] : List (String × PVal)) =
      some PVal.null := by
  refine ⟨by norm_num [weighted_mean], ?_, rfl⟩
  rfl

theorem weighted_mean_null_witness :
    weighted_mean [((5 : ℚ), 2, 0)] = none ∧
    dlookup ("L3_ROI_02_GCC_value")
        ([("L3_ROI_02_GCC_value", PVal.num 1)] : List (String × PVal)) ≠
      some (PVal.num 0) := by
  constructor
  · exact weighted_mean_null_and_gcc_sentinel.1 [((5 : ℚ), 2, 0)]
      (by intro r hr; rcases List.mem_singleton.mp hr with rfl; norm_num)
  · exact (weighted_mean_null_and_gcc_sentinel.2 ("ROI_02")
      [("GCC_value", PVal.num 1)] [] ""
      ([("L3_ROI_02_GCC_value", PVal.num 1)], ("L3_ROI_02_GCC_value"))
      (by decide) (by rfl)).1

/-- C5: whenever the annual assembly succeeds, the table has exactly one
row per calendar day (366 for a leap year, 365 otherwise), in ascending
day-of-year order 1..days with no gaps; a day with no source records keeps
an empty cell dict (every statistic column missing/null) while its year
and day_of_year fields are filled. -/
theorem annual_table_structure (year : ℕ)
    (results : List (ℕ × List (String × List (String × PVal))))
    (tbl : List TsRow)
    (h : build_annual_table year results = some tbl) :
    tbl.length =
      (if year % 4 = 0 ∧ (year % 100 ≠ 0 ∨ year % 400 = 0)
        then 366 else 365) ∧
    tbl.map TsRow.day_of_year = List.range' 1 (days_in_year year) ∧
    (∀ row ∈ tbl, row.year = toString year) ∧
    (∀ row ∈ tbl,
      row.day_of_year ∉ results.map Prod.fst → row.cells = []) := by
  unfold build_annual_table at h
  rcases Option.map_eq_some'.mp h with ⟨tc, htc, rfl⟩
  unfold fill_results at htc
  have hfst := fill_fold_map_fst results (init_roi_ts year, "") tc htc
  have hmem := fill_fold_mem results (init_roi_ts year, "") tc htc
  have hinit : (init_roi_ts year).map Prod.fst =
      List.range' 1 (days_in_year year) := by
    unfold init_roi_ts
    rw [List.map_map,
      show (Prod.fst ∘ fun d : ℕ => (d, ([] : List (String × PVal)))) = id
        from rfl,
      List.map_id]
  have hdays : tc.1.map Prod.fst = List.range' 1 (days_in_year year) :=
    hfst.trans hinit
  refine ⟨?_, ?_, ?_, ?_⟩
  · have hlen : tc.1.length = days_in_year year := by
      have := congrArg List.length hdays
      simpa using this
    simpa [days_in_year] using hlen
  · rw [List.map_map]
    exact hdays
  · intro row hrow
    rcases List.mem_map.mp hrow with ⟨e, _, rfl⟩
    rfl
  · intro row hrow hnot
    rcases List.mem_map.mp hrow with ⟨e, he, rfl⟩
    rcases hmem e he with hini | hkey
    · rcases List.mem_map.mp hini with ⟨d, _, heq⟩
      rw [← heq]
    · exact absurd hkey hnot

theorem annual_table_structure_witness :
    build_annual_table 2024 [] =
      some ((List.range' 1 366).map (fun d =>
        { year := "2024", day_of_year := d, cells := [] })) ∧
    ((List.range' 1 366).map (fun d =>
      ({ year := "2024", day_of_year := d, cells := [] } : TsRow))).length =
      366 ∧
    ((List.range' 1 366).map (fun d =>
        ({ year := "2024", day_of_year := d, cells := [] } : TsRow))).map
      TsRow.day_of_year = List.range' 1 (days_in_year 2024) := by
  have hb : build_annual_table 2024 [] =
      some ((List.range' 1 366).map (fun d =>
        { year := "2024", day_of_year := d, cells := [] })) := by
    unfold build_annual_table fill_results init_roi_ts days_in_year
    norm_num
    intro a _ _
    rfl
  have hs := annual_table_structure 2024 [] _ hb
  exact ⟨hb, hs.1.trans (by norm_num), hs.2.1⟩

/-- C10: the annual pipeline computes every per-day QFLAG with
`default_temporal_resolution` and `is_per_image` fixed to False, so the
sparse tier boundaries (2, 4) select the code's tens digit for every day
and ROI, and in the assembled table every present
`QFLAG_default_temporal_resolution` / `QFLAG_is_per_image` cell is either
False or null — never True. -/
theorem annual_qflag_fixed_false :
    (∀ (c : ℤ) (n : ℕ) (e : List (String × PVal)),
      qflag_day_entries c n = some e →
      dlookup ("QFLAG_default_temporal_resolution") e =
        some (PVal.boolv false) ∧
      dlookup ("QFLAG_is_per_image") e = some (PVal.boolv false) ∧
      ∃ w : ℚ,
        dlookup ("QFLAG_value") e =
          some (PVal.num
            ((10 * (if n < 2 then (1 : ℤ) else if n < 4 then 2 else 3) +
              c : ℤ) : ℚ)) ∧
        dlookup ("QFLAG_weight") e = some (PVal.num w)) ∧
    (∀ (year : ℕ)
      (results : List (ℕ × List (String × List (String × PVal))))
      (tbl : List TsRow),
      build_annual_table year results = some tbl →
      (∀ dr ∈ results, ∀ rp ∈ dr.2, ∃ (stats : List (String × PVal))
        (c : ℤ) (n : ℕ) (e : List (String × PVal)),
        qflag_day_entries c n = some e ∧ rp.2 = stats ++ e) →
      ∀ row ∈ tbl, flag_columns_ok row.cells) := by
  constructor
  · intro c n e he
    have hvalid : c = 1 ∨ c = 2 ∨ c = 3 := by
      by_contra hc
      unfold qflag_day_entries at he
      dsimp only at he
      rw [compute_QFLAG_none_of_invalid false false n c hc] at he
      exact absurd he (by simp)
    unfold qflag_day_entries at he
    dsimp only at he
    rw [compute_QFLAG_eq false false n c hvalid] at he
    rcases Option.map_eq_some'.mp he with ⟨qw, hqw, rfl⟩
    have hqw1 := Option.some.inj hqw
    refine ⟨?_, ?_, ?_⟩
    · rw [dlookup_cons_of_ne (by decide), dlookup_cons_of_ne (by decide)]
      exact dlookup_dinsert_self _ _ _
    · rw [dlookup_cons_of_ne (by decide), dlookup_cons_of_ne (by decide),
        dlookup_cons_of_ne (by decide)]
      exact dlookup_dinsert_self _ _ _
    · refine ⟨qw.2, ?_, ?_⟩
      · rw [show dlookup ("QFLAG_value")
            [("QFLAG_value", PVal.num (qw.1 : ℚ)),
             ("QFLAG_weight", PVal.num qw.2),
             ("QFLAG_default_temporal_resolution", PVal.boolv false),
             ("QFLAG_is_per_image", PVal.boolv false)] =
            some (PVal.num (qw.1 : ℚ))
          from dlookup_dinsert_self _ _ _]
        rw [← hqw1, ← count_tier_false]
      · rw [dlookup_cons_of_ne (by decide)]
        exact dlookup_dinsert_self _ _ _
  · intro year results tbl hb hshape row hrow
    unfold build_annual_table at hb
    rcases Option.map_eq_some'.mp hb with ⟨tc, htc, rfl⟩
    rcases List.mem_map.mp hrow with ⟨p, hp, rfl⟩
    unfold fill_results at htc
    have hinit : ∀ q ∈ (init_roi_ts year, "").1, flag_columns_ok q.2 := by
      intro q hq
      rcases List.mem_map.mp hq with ⟨d, _, rfl⟩
      intro v hv
      rcases hv with hv | hv <;> simp [dlookup] at hv
    exact flag_ok_results results _ tc hinit hshape htc p hp

set_option maxRecDepth 8000 in
theorem annual_qflag_fixed_false_witness :
    dlookup ("QFLAG_default_temporal_resolution")
        [("QFLAG_value", PVal.num ((22 : ℤ) : ℚ)),
         ("QFLAG_weight", PVal.num 0.75),
         ("QFLAG_default_temporal_resolution", PVal.boolv false),
         ("QFLAG_is_per_image", PVal.boolv false)] =
      some (PVal.boolv false) ∧
    flag_columns_ok
        [("QFLAG_is_per_image", PVal.boolv false),
         ("QFLAG_default_temporal_resolution", PVal.boolv false),
         ("QFLAG_value", PVal.num ((22 : ℤ) : ℚ)),
         ("L3_ROI_01_GCC_value", PVal.num 1)] := by
  have he : qflag_day_entries 2 3 = some
      [("QFLAG_value", PVal.num ((22 : ℤ) : ℚ)),
       ("QFLAG_weight", PVal.num 0.75),
       ("QFLAG_default_temporal_resolution", PVal.boolv false),
       ("QFLAG_is_per_image", PVal.boolv false)] := rfl
  have hb : build_annual_table 1
      [(1, [("ROI_01",
        [("GCC_value", PVal.num 1)] ++
          [("QFLAG_value", PVal.num ((22 : ℤ) : ℚ)),
           ("QFLAG_weight", PVal.num 0.75),
           ("QFLAG_default_temporal_resolution", PVal.boolv false),
           ("QFLAG_is_per_image", PVal.boolv false)])])] =
      some ({ year := "1", day_of_year := 1, cells :=
          [("QFLAG_is_per_image", PVal.boolv false),
           ("QFLAG_default_temporal_resolution", PVal.boolv false),
           ("QFLAG_value", PVal.num ((22 : ℤ) : ℚ)),
           ("L3_ROI_01_GCC_value", PVal.num 1)] } ::
        (List.range' 2 364).map (fun d =>
          { year := "1", day_of_year := d, cells := [] })) := by rfl
  have hshape : ∀ dr ∈
      ([(1, [("ROI_01",
        [("GCC_value", PVal.num 1)] ++
          [("QFLAG_value", PVal.num ((22 : ℤ) : ℚ)),
           ("QFLAG_weight", PVal.num 0.75),
           ("QFLAG_default_temporal_resolution", PVal.boolv false),
           ("QFLAG_is_per_image", PVal.boolv false)])])] :
        List (ℕ × List (String × List (String × PVal)))),
      ∀ rp ∈ dr.2, ∃ (stats : List (String × PVal)) (c : ℤ) (n : ℕ)
        (e : List (String × PVal)),
        qflag_day_entries c n = some e ∧ rp.2 = stats ++ e := by
    intro dr hdr rp hrp
    rcases List.mem_singleton.mp hdr with rfl
    rcases List.mem_singleton.mp hrp with rfl
    exact ⟨[("GCC_value", PVal.num 1)], 2, 3, _, he, rfl⟩
  exact ⟨(annual_qflag_fixed_false.1 2 3 _ he).1,
    annual_qflag_fixed_false.2 1 _ _ hb hshape _ (List.mem_cons_self _ _)⟩

/-- C9: the display path of app.py line 344 reuses the hours value in
place of the minutes value: with mean gap hours = 2 and minutes = 5 it
renders "02:02", not the symmetric "02:05" that line 332 produces for the
same input, so the hours/minutes formatting is not symmetric on every
code path. -/
theorem display_reuses_hours_for_minutes :
    display_time_resolution 2 5 = "02:02" ∧
    meantime_resolution_update 2 5 = "02:05:00" ∧
    display_time_resolution 2 5 ≠ "02:05" := by
  refine ⟨rfl, rfl, ?_⟩
  decide

end Phenocam
